import Mathlib

/-!
Verification development for the accounting2 repository.

The repository ingests Starling Bank webhook events and Etsy payment-account
ledger entries into Firestore.  Two variants of the Etsy ledger sync exist in
the sources: `functions/src/etsy/ledgerSync.ts` (called V1 below) and an
unnamed variant (called V2 below); likewise `functions/src/starling/webhook.ts`
contains two webhook handlers (`starlingFeedItem` and `starlingWebhook`), each
with its own `verifyEvent`.

The shallow embedding below models:
  * Firestore documents/collections as association lists keyed by the
    document path suffix; `set` with `{merge: true}` is a field-wise
    merge-upsert, `set` without merge replaces the document;
  * the remote Etsy API as a total dataset; a page request at `offset`
    with the fixed limit 100 returns the 100-element slice of the dataset
    starting at `offset` (the semantics of `limit`/`offset` pagination);
    requests may also throw, modelled by a `failsAt` predicate on offsets;
  * Node's crypto `verify` and `Buffer.from(_, "base64")` as opaque function
    parameters (their internals are outside the repository);
  * JavaScript falsiness (`!x`) on optional numeric / string fields
    explicitly: `undefined`, `0`, and `""` are falsy.
-/

namespace LedgerSpec

/-- One Etsy payment-account ledger entry, as the sync sees it after JSON
decoding: `entry_id` and `created_timestamp` may be absent, everything else
is an opaque payload.  Fields are `Option`s so that Firestore merge
semantics (absent fields preserved) can be expressed. -/
structure LedgerEntry where
  entry_id : Option Nat
  created_timestamp : Option Int
  payload : Option Int
deriving DecidableEq, Repr

/-- JavaScript falsiness of `entry.entry_id` (the `!entry.entry_id` test in
`persistBatch`): the field is falsy when absent or equal to `0`. -/
def entryIdMissing (entry : LedgerEntry) : Bool :=
  match entry.entry_id with
  | none => true
  | some n => n == 0

/-- Document key used by `persistBatch`: the template literal
`events/etsy/ledgerentry/(entry.entry_id)` identifies the document by the
entry id; we keep the numeric id as the key. -/
def keyOf (entry : LedgerEntry) : Nat := entry.entry_id.getD 0

/-- The `events/etsy/ledgerentry` collection: documents keyed by entry id. -/
abbrev Store := List (Nat × LedgerEntry)

/-- Firestore `set` with `{merge: true}` on one document: fields present in
the new data overwrite, absent fields of the new data are preserved. -/
def mergeEntry (oldEntry newEntry : LedgerEntry) : LedgerEntry where
  entry_id := match newEntry.entry_id with
    | some v => some v
    | none => oldEntry.entry_id
  created_timestamp := match newEntry.created_timestamp with
    | some v => some v
    | none => oldEntry.created_timestamp
  payload := match newEntry.payload with
    | some v => some v
    | none => oldEntry.payload

/-- Merge-upsert of one ledger-entry document at key `k`: replace (merging)
the first binding of `k`, or append a fresh document when `k` is unbound. -/
def storeSet : Store → Nat → LedgerEntry → Store
  | [], k, e => [(k, e)]
  | p :: rest, k, e =>
    if p.1 == k then (p.1, mergeEntry p.2 e) :: rest else p :: storeSet rest k e

/-- Result of `persistBatch`: the store after the batch commit, the returned
count, and the entries that were dropped (each logged individually). -/
structure BatchResult where
  store : Store
  count : Nat
  dropped : List LedgerEntry
deriving DecidableEq, Repr

/-- Embedding of `persistBatch` from `functions/src/etsy/ledgerSync.ts`
(lines 122-153): return 0 on an empty list; filter out entries whose
`entry_id` is falsy (logging each); commit the remaining entries as one
batch of merge-upserts; return the number of entries written. -/
def persistBatch (store : Store) (entries : List LedgerEntry) : BatchResult :=
  if entries.length = 0 then ⟨store, 0, []⟩
  else
    let validEntries := entries.filter (fun entry => !entryIdMissing entry)
    let dropped := entries.filter (fun entry => entryIdMissing entry)
    if validEntries.length = 0 then ⟨store, 0, dropped⟩
    else
      ⟨validEntries.foldl (fun s entry => storeSet s (keyOf entry) entry) store,
       validEntries.length, dropped⟩

/-- Embedding of `persistBatch` from the unnamed sync variant (V2).  The
source text of the function is identical to the V1 function. -/
def persistBatchV2 (store : Store) (entries : List LedgerEntry) : BatchResult :=
  if entries.length = 0 then ⟨store, 0, []⟩
  else
    let validEntries := entries.filter (fun entry => !entryIdMissing entry)
    let dropped := entries.filter (fun entry => entryIdMissing entry)
    if validEntries.length = 0 then ⟨store, 0, dropped⟩
    else
      ⟨validEntries.foldl (fun s entry => storeSet s (keyOf entry) entry) store,
       validEntries.length, dropped⟩

/-- The valid (non-dropped) part of an input batch. -/
def validOf (entries : List LedgerEntry) : List LedgerEntry :=
  entries.filter (fun entry => !entryIdMissing entry)

/-- The dropped part of an input batch. -/
def droppedOf (entries : List LedgerEntry) : List LedgerEntry :=
  entries.filter (fun entry => entryIdMissing entry)

/-- Sequential merge-upsert of a list of entries. -/
def persistList (store : Store) (entries : List LedgerEntry) : Store :=
  entries.foldl (fun s entry => storeSet s (keyOf entry) entry) store

/-- Keys written by one `persistBatch` call on `entries`. -/
def pageKeys (entries : List LedgerEntry) : List Nat :=
  (validOf entries).map keyOf

/-- The remote Etsy ledger API, abstracted: `data shopId minCreated
maxCreated` is the full ordered result set the API holds for that shop and
creation-time window; `failsAt offset` says whether the page request at that
offset throws. -/
structure RemoteApi where
  data : Int → Int → Int → List LedgerEntry
  failsAt : Nat → Bool

/-- `response.data.results || []` for the request at `offset` with the fixed
`limit = 100`: the 100-element slice of the window's result set starting at
`offset`. -/
def pageAt (api : RemoteApi) (shopId minCreated maxCreated : Int) (offset : Nat) :
    List LedgerEntry :=
  ((api.data shopId minCreated maxCreated).drop offset).take 100

/-- Observable side effects of one sync run, in chronological order. -/
inductive SyncEvent
  | fetchReq (offset limit : Nat)
  | fetchFail (offset : Nat)
  | persist (keys : List Nat)
deriving DecidableEq, Repr

/-- Result of the paginated fetch-and-persist loop: final store, the event
trace, and the returned total (or the propagated fetch error). -/
structure FetchResult where
  store : Store
  trace : List SyncEvent
  outcome : Except String Nat

/-- Embedding of the inner `processPage` of `fetchAndPersistLedgerEntries`
(V1, lines 167-199): request the page at `offset` (a throwing request aborts
with the error), persist it immediately via `persistBatch`, add the persisted
count to the running total, stop on an empty or short page, otherwise recurse
at `offset + 100`. -/
def processPage (api : RemoteApi) (shopId minCreated maxCreated : Int)
    (offset totalPersisted : Nat) (store : Store) : FetchResult :=
  if api.failsAt offset then
    ⟨store, [.fetchReq offset 100, .fetchFail offset], .error "ledger fetch failed"⟩
  else if h : (pageAt api shopId minCreated maxCreated offset).length = 0 ∨
      (pageAt api shopId minCreated maxCreated offset).length < 100 then
    ⟨(persistBatch store (pageAt api shopId minCreated maxCreated offset)).store,
     [.fetchReq offset 100,
      .persist (pageKeys (pageAt api shopId minCreated maxCreated offset))],
     .ok (totalPersisted +
       (persistBatch store (pageAt api shopId minCreated maxCreated offset)).count)⟩
  else
    ⟨(processPage api shopId minCreated maxCreated (offset + 100)
        (totalPersisted +
          (persistBatch store (pageAt api shopId minCreated maxCreated offset)).count)
        (persistBatch store (pageAt api shopId minCreated maxCreated offset)).store).store,
     .fetchReq offset 100 ::
       .persist (pageKeys (pageAt api shopId minCreated maxCreated offset)) ::
         (processPage api shopId minCreated maxCreated (offset + 100)
           (totalPersisted +
             (persistBatch store (pageAt api shopId minCreated maxCreated offset)).count)
           (persistBatch store (pageAt api shopId minCreated maxCreated offset)).store).trace,
     (processPage api shopId minCreated maxCreated (offset + 100)
       (totalPersisted +
         (persistBatch store (pageAt api shopId minCreated maxCreated offset)).count)
       (persistBatch store (pageAt api shopId minCreated maxCreated offset)).store).outcome⟩
termination_by (api.data shopId minCreated maxCreated).length - offset
decreasing_by
  all_goals simp only [pageAt, List.length_take, List.length_drop] at h
  all_goals omega

/-- Embedding of `fetchAndPersistLedgerEntries` (V1, lines 159-209): run the
page loop from offset 0 with total 0; the surrounding try/catch only logs and
rethrows, so it does not change the result. -/
def fetchAndPersistLedgerEntries (api : RemoteApi) (shopId minCreated maxCreated : Int)
    (store : Store) : FetchResult :=
  processPage api shopId minCreated maxCreated 0 0 store

/-- Embedding of the inner `processPage` of the unnamed variant (V2, lines
169-198).  The source logic is identical to V1; the V1 call additionally
passes an `etsyUserId: 0` client option that the client does not use. -/
def processPageV2 (api : RemoteApi) (shopId minCreated maxCreated : Int)
    (offset totalPersisted : Nat) (store : Store) : FetchResult :=
  if api.failsAt offset then
    ⟨store, [.fetchReq offset 100, .fetchFail offset], .error "ledger fetch failed"⟩
  else if h : (pageAt api shopId minCreated maxCreated offset).length = 0 ∨
      (pageAt api shopId minCreated maxCreated offset).length < 100 then
    ⟨(persistBatchV2 store (pageAt api shopId minCreated maxCreated offset)).store,
     [.fetchReq offset 100,
      .persist (pageKeys (pageAt api shopId minCreated maxCreated offset))],
     .ok (totalPersisted +
       (persistBatchV2 store (pageAt api shopId minCreated maxCreated offset)).count)⟩
  else
    ⟨(processPageV2 api shopId minCreated maxCreated (offset + 100)
        (totalPersisted +
          (persistBatchV2 store (pageAt api shopId minCreated maxCreated offset)).count)
        (persistBatchV2 store (pageAt api shopId minCreated maxCreated offset)).store).store,
     .fetchReq offset 100 ::
       .persist (pageKeys (pageAt api shopId minCreated maxCreated offset)) ::
         (processPageV2 api shopId minCreated maxCreated (offset + 100)
           (totalPersisted +
             (persistBatchV2 store (pageAt api shopId minCreated maxCreated offset)).count)
           (persistBatchV2 store (pageAt api shopId minCreated maxCreated offset)).store).trace,
     (processPageV2 api shopId minCreated maxCreated (offset + 100)
       (totalPersisted +
         (persistBatchV2 store (pageAt api shopId minCreated maxCreated offset)).count)
       (persistBatchV2 store (pageAt api shopId minCreated maxCreated offset)).store).outcome⟩
termination_by (api.data shopId minCreated maxCreated).length - offset
decreasing_by
  all_goals simp only [pageAt, List.length_take, List.length_drop] at h
  all_goals omega

/-- Embedding of `fetchAndPersistLedgerEntries` of the unnamed variant (V2,
lines 161-208). -/
def fetchAndPersistLedgerEntriesV2 (api : RemoteApi) (shopId minCreated maxCreated : Int)
    (store : Store) : FetchResult :=
  processPageV2 api shopId minCreated maxCreated 0 0 store

/-- The page requests (offset, limit) recorded in a trace, in order. -/
def requestsOf (trace : List SyncEvent) : List (Nat × Nat) :=
  trace.filterMap (fun e => match e with
    | .fetchReq offset limit => some (offset, limit)
    | _ => none)

/-- The trace of a clean run of `k` pages starting at `offset`: each page is
requested and then immediately persisted, before the next page is requested. -/
def cleanTrace (data : List LedgerEntry) (offset k : Nat) : List SyncEvent :=
  match k with
  | 0 => []
  | Nat.succ k =>
    .fetchReq offset 100 :: .persist (pageKeys ((data.drop offset).take 100)) ::
      cleanTrace data (offset + 100) k

/-- A document of the `events/etsy/ledgerentry` collection as seen by the
cursor query; the resolver only reads the `body.created_timestamp` field,
recorded here when present. -/
structure LedgerDoc where
  created_timestamp : Option Int
deriving DecidableEq, Repr

/-- Outcome of the Firestore cursor query
`orderBy("body.created_timestamp", "desc").limit(1).get()`: the query may
throw, return an empty snapshot, or return a top document. -/
inductive QueryResult
  | err
  | ok (topDoc : Option LedgerDoc)
deriving DecidableEq, Repr

/-- `30 * 24 * 60 * 60` seconds, the 30-day lookback used by the V1 fallback
and by the V2 window-end computation. -/
def thirtyDaysInSeconds : Int := 30 * 24 * 60 * 60

/-- The maximum `body.created_timestamp` over the stored documents that have
the field, if any. -/
def maxCreated (docs : List LedgerDoc) : Option Int :=
  (docs.filterMap (fun d => d.created_timestamp)).max?

/-- Model of the Firestore query over a concrete collection state:
`orderBy` on `body.created_timestamp` excludes documents missing that field;
with `desc` ordering and `limit(1)` the snapshot holds a document carrying
the maximal field value, and is empty when no document has the field. -/
def ledgerQuery (docs : List LedgerDoc) : QueryResult :=
  match maxCreated docs with
  | none => .ok none
  | some t => .ok (some ⟨some t⟩)

/-- Embedding of `getLastSyncTimestamp` (V1, lines 87-117), with
`now = Math.floor(Date.now() / 1000)` as a parameter: fall back to
`now - 30 days` when the query throws, the snapshot is empty, or the top
document's `body?.created_timestamp` is falsy (absent or `0`); otherwise
return that timestamp.  The function is total: no error propagates. -/
def getLastSyncTimestamp (now : Int) (q : QueryResult) : Int :=
  match q with
  | .err => now - thirtyDaysInSeconds
  | .ok none => now - thirtyDaysInSeconds
  | .ok (some lastEntry) =>
    match lastEntry.created_timestamp with
    | none => now - thirtyDaysInSeconds
    | some timestamp =>
      if timestamp == 0 then now - thirtyDaysInSeconds else timestamp

/-- Embedding of `getLastSyncTimestamp` of the unnamed variant (V2, lines
92-119): same query, but the fallback value is `null` (`none`); the caller
applies `?? 0`.  The function is total: no error propagates. -/
def getLastSyncTimestampV2 (q : QueryResult) : Option Int :=
  match q with
  | .err => none
  | .ok none => none
  | .ok (some lastEntry) =>
    match lastEntry.created_timestamp with
    | none => none
    | some timestamp =>
      if timestamp == 0 then none else some timestamp

/-- Line 250 of the V2 variant: `(await getLastSyncTimestamp()) ?? 0`. -/
def resolvedCursorV2 (q : QueryResult) : Int :=
  (getLastSyncTimestampV2 q).getD 0

/-- Model of JavaScript `parseInt(s, 10)` restricted to canonical decimal
strings: the parsed number, or `none` for `NaN`. -/
def parseIntBase10 (s : String) : Option Nat := s.toNat?

/-- The configuration parameters read by the V2 scheduled job.
`etsySyncEnabled` is `none` when the `ETSY_SYNC_ENABLED` parameter is unset,
in which case `value()` yields the declared default `"false"`. -/
structure EtsyConfig where
  etsyApiKey : String
  etsySharedSecret : String
  etsyShopId : String
  etsySyncEnabled : Option String
deriving DecidableEq, Repr

/-- `etsySyncEnabled.value()`: the configured string or the default. -/
def syncEnabledValue (cfg : EtsyConfig) : String :=
  cfg.etsySyncEnabled.getD "false"

/-- ASCII lower-casing of one character (the fragment of JavaScript
`toLowerCase` relevant to the flag values compared here). -/
def lowerChar (c : Char) : Char :=
  match c with
  | 'A' => 'a' | 'B' => 'b' | 'C' => 'c' | 'D' => 'd' | 'E' => 'e' | 'F' => 'f'
  | 'G' => 'g' | 'H' => 'h' | 'I' => 'i' | 'J' => 'j' | 'K' => 'k' | 'L' => 'l'
  | 'M' => 'm' | 'N' => 'n' | 'O' => 'o' | 'P' => 'p' | 'Q' => 'q' | 'R' => 'r'
  | 'S' => 's' | 'T' => 't' | 'U' => 'u' | 'V' => 'v' | 'W' => 'w' | 'X' => 'x'
  | 'Y' => 'y' | 'Z' => 'z' | other => other

/-- Model of JavaScript `String.prototype.toLowerCase` on ASCII strings. -/
def toLowerAscii (s : String) : String :=
  String.mk (s.data.map lowerChar)

/-- Result of one invocation of the scheduled job: final store, trace of
remote requests/persists, whether the cursor query was executed, and the
outcome (`error` models a rethrown exception). -/
structure JobResult where
  store : Store
  trace : List SyncEvent
  cursorQueried : Bool
  outcome : Except String Unit

/-- Embedding of the V2 scheduled function `etsyLedgerSync` (unnamed variant,
lines 213-282): exit immediately when the enable flag is not `"true"`
(case-insensitively); otherwise parse the shop id (throwing on `NaN`),
resolve the cursor (`?? 0`), set the window end to cursor + 30 days, and run
the fetch-and-persist loop; errors are logged and rethrown. -/
def etsyLedgerSyncV2 (cfg : EtsyConfig) (q : QueryResult) (api : RemoteApi)
    (store : Store) : JobResult :=
  if toLowerAscii (syncEnabledValue cfg) ≠ "true" then
    ⟨store, [], false, .ok ()⟩
  else
    match parseIntBase10 cfg.etsyShopId with
    | none => ⟨store, [], false, .error "Invalid ETSY_SHOP_ID configuration"⟩
    | some shopIdNum =>
      let lastSyncTimestamp : Int := resolvedCursorV2 q
      let toTimestamp : Int := lastSyncTimestamp + thirtyDaysInSeconds
      let r := fetchAndPersistLedgerEntriesV2 api shopIdNum lastSyncTimestamp
        toTimestamp store
      ⟨r.store, r.trace, true,
       match r.outcome with
       | .ok _ => .ok ()
       | .error e => .error e⟩

/-- A JSON scalar value, enough for the fields the webhook handler reads. -/
inductive JValue
  | jnull
  | jbool (b : Bool)
  | jnum (n : Int)
  | jstr (s : String)
deriving DecidableEq, Repr

/-- JavaScript falsiness of a JSON scalar. -/
def jfalsy : JValue → Bool
  | .jnull => true
  | .jbool b => !b
  | .jnum n => n == 0
  | .jstr s => s == ""

/-- Template-literal rendering of a JSON scalar. -/
def jvalueToString : JValue → String
  | .jnull => "null"
  | .jbool true => "true"
  | .jbool false => "false"
  | .jnum n => toString n
  | .jstr s => s

/-- A header value in Node's `request.headers`: a single string, or an array
when the header was sent more than once. -/
inductive HVal
  | hstr (s : String)
  | harr (l : List String)
deriving DecidableEq, Repr

/-- An inbound webhook request: the raw body bytes (abstracted as a string),
the body as parsed by `JSON.parse` (assumed well-formed, as an object whose
scalar fields are listed), and the transport headers (Node lower-cases
incoming header names; lookup is by exact key). -/
structure Req where
  rawBody : String
  parsedBody : List (String × JValue)
  headers : List (String × HVal)
deriving DecidableEq, Repr

/-- Embedding of `verifyEvent` of `starlingFeedItem`
(`functions/src/starling/webhook.ts` lines 53-65): read the
`"x-hook-signature"` header; return `false` when it is falsy (absent or the
empty string) or an array; otherwise check the base64-decoded signature
against the raw body.  `rsaVerify` abstracts Node's
`verify("RSA-SHA512", rawBody, PUBLIC_KEY_OBJECT, sig)` with the
once-initialized public key, `base64Decode` abstracts
`Buffer.from(_, "base64")`. -/
def verifyEvent (rsaVerify : String → String → Bool)
    (base64Decode : String → String) (request : Req) : Bool :=
  match request.headers.lookup "x-hook-signature" with
  | none => false
  | some (.harr _) => false
  | some (.hstr s) =>
    if s == "" then false else rsaVerify request.rawBody (base64Decode s)

/-- Embedding of `verifyEvent` of the `starlingWebhook` variant (same file,
lines 100-112): identical except that the header is read under the
capitalized key `"X-Hook-Signature"`. -/
def verifyEventV2 (rsaVerify : String → String → Bool)
    (base64Decode : String → String) (request : Req) : Bool :=
  match request.headers.lookup "X-Hook-Signature" with
  | none => false
  | some (.harr _) => false
  | some (.hstr s) =>
    if s == "" then false else rsaVerify request.rawBody (base64Decode s)

/-- The body of an HTTP response of the webhook handler. -/
inductive RespBody
  | empty
  | errJson (error : String)
deriving DecidableEq, Repr

/-- An HTTP response: status code and body. -/
structure HttpResponse where
  status : Nat
  body : RespBody
deriving DecidableEq, Repr

/-- The document written for one webhook event: the parsed body and the
original headers. -/
structure WebhookDoc where
  body : List (String × JValue)
  headers : List (String × HVal)
deriving DecidableEq, Repr

/-- The `events/starling/feeditem` collection, keyed by document path. -/
abbrev WStore := List (String × WebhookDoc)

/-- Firestore `set` without merge options on one document: replace the first
binding of `k`, or append a fresh document when `k` is unbound. -/
def wstoreSet : WStore → String → WebhookDoc → WStore
  | [], k, d => [(k, d)]
  | p :: rest, k, d =>
    if p.1 == k then (k, d) :: rest else p :: wstoreSet rest k d

/-- `eventBodyJson["webhookEventUid"]` followed by the `if (!eventId)` test:
the extracted event identifier, `none` when the field is absent or falsy. -/
def extractedUid (parsedBody : List (String × JValue)) : Option JValue :=
  match parsedBody.lookup "webhookEventUid" with
  | none => none
  | some v => if jfalsy v then none else some v

/-- The document path `events/starling/feeditem/(eventId)`. -/
def feedItemDocKey (eventId : JValue) : String :=
  "events/starling/feeditem/" ++ jvalueToString eventId

/-- Result of one webhook delivery: the HTTP response and the store state. -/
structure FeedItemResult where
  response : HttpResponse
  store : WStore
deriving DecidableEq, Repr

/-- Embedding of the `starlingFeedItem` request handler
(`functions/src/starling/webhook.ts` lines 23-51): reject with 400 and a
structured error body when signature verification fails; parse the body and
reject with 400 when the extracted `webhookEventUid` is absent/falsy;
otherwise persist one document (parsed body + headers) at the key derived
from the event id and respond 202 with an empty body. -/
def starlingFeedItem (rsaVerify : String → String → Bool)
    (base64Decode : String → String) (store : WStore) (req : Req) :
    FeedItemResult :=
  if !verifyEvent rsaVerify base64Decode req then
    ⟨⟨400, .errJson "Integrity of message signature could not be verified"⟩, store⟩
  else
    match extractedUid req.parsedBody with
    | none => ⟨⟨400, .errJson "Missing webhookEventUid in payload"⟩, store⟩
    | some eventId =>
      ⟨⟨202, .empty⟩,
       wstoreSet store (feedItemDocKey eventId) ⟨req.parsedBody, req.headers⟩⟩

/-- Number of documents stored under key `k`. -/
def wcountKey (store : WStore) (k : String) : Nat :=
  (store.filter (fun p => p.1 == k)).length

/-! ## Helper lemmas -/

theorem persistBatch_eq (store : Store) (entries : List LedgerEntry) :
    persistBatch store entries =
      ⟨persistList store (validOf entries), (validOf entries).length,
       droppedOf entries⟩ := by
  unfold persistBatch persistList validOf droppedOf
  by_cases h : entries.length = 0
  · rw [if_pos h]
    rw [List.length_eq_zero] at h
    subst h
    simp
  · rw [if_neg h]
    by_cases h2 : (entries.filter (fun entry => !entryIdMissing entry)).length = 0
    · rw [if_pos h2]
      rw [List.length_eq_zero] at h2
      rw [h2]
      simp
    · rw [if_neg h2]

theorem persistBatchV2_eq_persistBatch (store : Store) (entries : List LedgerEntry) :
    persistBatchV2 store entries = persistBatch store entries := rfl

/-! ## Claim theorems -/

/-- Claim C4: `persistBatch` returns 0 and performs no write on an empty
list; it drops (logging individually) exactly the records whose `entry_id`
is missing (JS-falsy); it writes the remaining records and returns their
count, which is at most the input count. -/
theorem persistBatch_filters_and_counts (store : Store) (entries : List LedgerEntry) :
    (entries = [] → persistBatch store entries = ⟨store, 0, []⟩) ∧
    (persistBatch store entries).dropped = droppedOf entries ∧
    (∀ e ∈ entries, entryIdMissing e = true → e ∈ (persistBatch store entries).dropped) ∧
    (persistBatch store entries).count = (validOf entries).length ∧
    (persistBatch store entries).store = persistList store (validOf entries) ∧
    (persistBatch store entries).count ≤ entries.length := by
  rw [persistBatch_eq]
  refine ⟨?_, rfl, ?_, rfl, rfl, ?_⟩
  · intro h
    subst h
    rfl
  · intro e he hm
    simp only [droppedOf, List.mem_filter]
    exact ⟨he, hm⟩
  · exact List.length_filter_le _ _

/-- Witness for C4: a batch of 10 records of which 2 lack an identifier
yields 8 persisted, count 8, and both invalid records logged; the empty
batch is a no-op returning 0. -/
theorem persistBatch_filters_and_counts_witness :
    (persistBatch [] [] = ⟨[], 0, []⟩) ∧
    (persistBatch []
        [⟨some 1, some 1, none⟩, ⟨some 2, some 1, none⟩, ⟨some 3, some 1, none⟩,
         ⟨some 4, some 1, none⟩, ⟨none, some 1, none⟩, ⟨some 5, some 1, none⟩,
         ⟨some 6, some 1, none⟩, ⟨some 7, some 1, none⟩, ⟨some 8, some 1, none⟩,
         ⟨none, none, none⟩]).count = 8 ∧
    (persistBatch []
        [⟨some 1, some 1, none⟩, ⟨some 2, some 1, none⟩, ⟨some 3, some 1, none⟩,
         ⟨some 4, some 1, none⟩, ⟨none, some 1, none⟩, ⟨some 5, some 1, none⟩,
         ⟨some 6, some 1, none⟩, ⟨some 7, some 1, none⟩, ⟨some 8, some 1, none⟩,
         ⟨none, none, none⟩]).dropped =
      [⟨none, some 1, none⟩, ⟨none, none, none⟩] := by
  refine ⟨(persistBatch_filters_and_counts [] []).1 rfl, ?_, ?_⟩
  · rw [(persistBatch_filters_and_counts [] _).2.2.2.1]
    decide
  · rw [(persistBatch_filters_and_counts [] _).2.1]
    decide

/-- Claim C3 counterexample: a store whose single entry has
`created_timestamp = 0` (field present, query succeeds, store nonempty) —
the resolver returns the 30-day fallback, not the stored maximum `0`. -/
theorem cursor_zero_timestamp_counterexample :
    maxCreated [⟨some 0⟩] = some 0 ∧
    ledgerQuery [⟨some 0⟩] = .ok (some ⟨some 0⟩) ∧
    getLastSyncTimestamp 5184000 (ledgerQuery [⟨some 0⟩]) = 2592000 ∧
    getLastSyncTimestampV2 (ledgerQuery [⟨some 0⟩]) = none := by
  refine ⟨rfl, rfl, by decide, rfl⟩

/-- Claim C3 (amended): the resolver is total (no error propagates) and
returns the documented fallback (`now - 2592000` for V1, `0` after `?? 0`
for V2) when the query throws, the snapshot is empty, or the top document
lacks the timestamp field; when some stored entry has the field and the
maximum value is nonzero it returns that maximum (a zero maximum is JS-falsy
and also triggers the fallback). -/
theorem cursor_fallback_and_max (now : Int) (docs : List LedgerDoc) :
    getLastSyncTimestamp now .err = now - 2592000 ∧
    getLastSyncTimestamp now (.ok none) = now - 2592000 ∧
    getLastSyncTimestamp now (.ok (some ⟨none⟩)) = now - 2592000 ∧
    (maxCreated docs = none →
      getLastSyncTimestamp now (ledgerQuery docs) = now - 2592000) ∧
    (∀ t, maxCreated docs = some t → t ≠ 0 →
      getLastSyncTimestamp now (ledgerQuery docs) = t) ∧
    resolvedCursorV2 .err = 0 ∧
    resolvedCursorV2 (.ok none) = 0 ∧
    resolvedCursorV2 (.ok (some ⟨none⟩)) = 0 ∧
    (∀ t, maxCreated docs = some t → t ≠ 0 →
      resolvedCursorV2 (ledgerQuery docs) = t) := by
  refine ⟨rfl, rfl, rfl, ?_, ?_, rfl, rfl, rfl, ?_⟩
  · intro h
    rw [ledgerQuery, h]
    rfl
  · intro t h ht
    rw [ledgerQuery, h]
    simp [getLastSyncTimestamp, beq_eq_false_iff_ne.mpr ht]
  · intro t h ht
    rw [ledgerQuery, h]
    simp [resolvedCursorV2, getLastSyncTimestampV2, beq_eq_false_iff_ne.mpr ht]

/-- Witness for C3: on the empty store both resolvers return their exact
fallbacks; with stored timestamps `{7, 3}` both return the maximum 7. -/
theorem cursor_fallback_and_max_witness :
    getLastSyncTimestamp 5184000 (ledgerQuery []) = 2592000 ∧
    resolvedCursorV2 (ledgerQuery []) = 0 ∧
    getLastSyncTimestamp 5184000 (ledgerQuery [⟨some 7⟩, ⟨none⟩, ⟨some 3⟩]) = 7 ∧
    resolvedCursorV2 (ledgerQuery [⟨some 7⟩, ⟨none⟩, ⟨some 3⟩]) = 7 := by
  refine ⟨?_, ?_, ?_, ?_⟩
  · rw [(cursor_fallback_and_max 5184000 []).2.2.2.1 rfl]
    decide
  · exact (cursor_fallback_and_max 5184000 []).2.2.2.2.2.2.1
  · exact (cursor_fallback_and_max 5184000 [⟨some 7⟩, ⟨none⟩, ⟨some 3⟩]).2.2.2.2.1
      7 (by decide) (by decide)
  · exact (cursor_fallback_and_max 5184000 [⟨some 7⟩, ⟨none⟩, ⟨some 3⟩]).2.2.2.2.2.2.2.2
      7 (by decide) (by decide)

/-- Claim C6: the `starlingFeedItem` signature verifier returns `false`
(totally, without consulting the cryptographic primitive — the conclusion
holds for every `rsaVerify`) when the signature header is absent or
multi-valued; only a uniquely-present, nonempty header value reaches the
cryptographic check, whose result it returns. -/
theorem verifyEvent_header_gate (rsaVerify : String → String → Bool)
    (base64Decode : String → String) (req : Req) :
    (req.headers.lookup "x-hook-signature" = none →
      verifyEvent rsaVerify base64Decode req = false) ∧
    (∀ l, req.headers.lookup "x-hook-signature" = some (.harr l) →
      verifyEvent rsaVerify base64Decode req = false) ∧
    (∀ s, req.headers.lookup "x-hook-signature" = some (.hstr s) → s ≠ "" →
      verifyEvent rsaVerify base64Decode req =
        rsaVerify req.rawBody (base64Decode s)) := by
  refine ⟨?_, ?_, ?_⟩
  · intro h
    rw [verifyEvent, h]
  · intro l h
    rw [verifyEvent, h]
  · intro s h hs
    rw [verifyEvent, h]
    simp [beq_eq_false_iff_ne.mpr hs]

/-- Witness for C6: a request without the header and one with a duplicated
header are rejected even when the cryptographic check would accept
everything; a single nonempty header value yields the check's verdict. -/
theorem verifyEvent_header_gate_witness :
    verifyEvent (fun _ _ => true) (fun s => s) ⟨"raw", [], []⟩ = false ∧
    verifyEvent (fun _ _ => true) (fun s => s)
      ⟨"raw", [], [("x-hook-signature", .harr ["a", "a"])]⟩ = false ∧
    verifyEvent (fun _ _ => true) (fun s => s)
      ⟨"raw", [], [("x-hook-signature", .hstr "sig")]⟩ = true := by
  refine ⟨(verifyEvent_header_gate _ _ _).1 rfl,
    (verifyEvent_header_gate _ _ _).2.1 ["a", "a"] rfl, ?_⟩
  rw [(verifyEvent_header_gate (fun _ _ => true) (fun s => s)
    ⟨"raw", [], [("x-hook-signature", .hstr "sig")]⟩).2.2 "sig" rfl (by decide)]

/-- Claim C9: the two verifier variants read the signature header under
different keys (`"x-hook-signature"` vs `"X-Hook-Signature"`); on a request
binding the signature only under the lowercase key, the `starlingFeedItem`
verifier proceeds to the cryptographic check while the `starlingWebhook`
verifier returns `false`. -/
theorem verifyEvent_variants_case_sensitivity (rsaVerify : String → String → Bool)
    (base64Decode : String → String) (req : Req) (s : String) :
    req.headers.lookup "x-hook-signature" = some (.hstr s) →
    req.headers.lookup "X-Hook-Signature" = none →
    s ≠ "" →
    verifyEvent rsaVerify base64Decode req = rsaVerify req.rawBody (base64Decode s) ∧
    verifyEventV2 rsaVerify base64Decode req = false := by
  intro h1 h2 hs
  constructor
  · rw [verifyEvent, h1]
    simp [beq_eq_false_iff_ne.mpr hs]
  · rw [verifyEventV2, h2]

/-- Witness for C9: on a request carrying the signature only under the
lowercase key, the first variant accepts (with an all-accepting check) while
the second rejects. -/
theorem verifyEvent_variants_case_sensitivity_witness :
    verifyEvent (fun _ _ => true) (fun s => s)
      ⟨"raw", [], [("x-hook-signature", .hstr "sig")]⟩ = true ∧
    verifyEventV2 (fun _ _ => true) (fun s => s)
      ⟨"raw", [], [("x-hook-signature", .hstr "sig")]⟩ = false := by
  have h := verifyEvent_variants_case_sensitivity (fun _ _ => true) (fun s => s)
    ⟨"raw", [], [("x-hook-signature", .hstr "sig")]⟩ "sig" rfl rfl (by decide)
  exact ⟨h.1, h.2⟩

/-- Claim C2 counterexample: a request whose signature verifies and whose
parsed body contains the `webhookEventUid` field with the (JS-falsy) empty
string — the field is present, yet the handler responds 400 and persists
nothing, where the claim as stated requires a 202 and one persisted
document. -/
theorem starlingFeedItem_empty_uid_counterexample :
    ((([("webhookEventUid", JValue.jstr "")] : List (String × JValue)).lookup
        "webhookEventUid").isSome = true) ∧
    verifyEvent (fun _ _ => true) (fun s => s)
      ⟨"raw", [("webhookEventUid", .jstr "")],
        [("x-hook-signature", .hstr "sig")]⟩ = true ∧
    (starlingFeedItem (fun _ _ => true) (fun s => s) []
      ⟨"raw", [("webhookEventUid", .jstr "")],
        [("x-hook-signature", .hstr "sig")]⟩).response =
      ⟨400, .errJson "Missing webhookEventUid in payload"⟩ ∧
    (starlingFeedItem (fun _ _ => true) (fun s => s) []
      ⟨"raw", [("webhookEventUid", .jstr "")],
        [("x-hook-signature", .hstr "sig")]⟩).store = [] := by
  refine ⟨rfl, rfl, rfl, rfl⟩

/-- Claim C2 (amended): on signature-verification failure the handler
responds 400 with a structured error body and persists nothing; when
verification succeeds but the extracted `webhookEventUid` is absent or
JS-falsy (e.g. the empty string) it responds 400 with a structured error
body and persists nothing; otherwise it persists exactly one document at the
key derived from the event identifier, storing the parsed body and the
original headers, and responds 202 with an empty body. -/
theorem starlingFeedItem_responses (rsaVerify : String → String → Bool)
    (base64Decode : String → String) (store : WStore) (req : Req) :
    (verifyEvent rsaVerify base64Decode req = false →
      starlingFeedItem rsaVerify base64Decode store req =
        ⟨⟨400, .errJson "Integrity of message signature could not be verified"⟩,
         store⟩) ∧
    (verifyEvent rsaVerify base64Decode req = true →
      extractedUid req.parsedBody = none →
      starlingFeedItem rsaVerify base64Decode store req =
        ⟨⟨400, .errJson "Missing webhookEventUid in payload"⟩, store⟩) ∧
    (∀ eventId, verifyEvent rsaVerify base64Decode req = true →
      extractedUid req.parsedBody = some eventId →
      starlingFeedItem rsaVerify base64Decode store req =
        ⟨⟨202, .empty⟩,
         wstoreSet store (feedItemDocKey eventId)
           ⟨req.parsedBody, req.headers⟩⟩) := by
  refine ⟨?_, ?_, ?_⟩
  · intro h
    rw [starlingFeedItem, h]
    rfl
  · intro h h2
    rw [starlingFeedItem, h, h2]
    rfl
  · intro eventId h h2
    rw [starlingFeedItem, h, h2]
    rfl

/-- Witness for C2 (amended): a correctly signed request with
`webhookEventUid = "ev-1"` yields a 202 with the document persisted; a
request with a bad signature yields the 400 integrity error; a verified
request without the field yields the 400 missing-uid error. -/
theorem starlingFeedItem_responses_witness :
    starlingFeedItem (fun _ _ => true) (fun s => s) []
      ⟨"raw", [("webhookEventUid", .jstr "ev-1")],
        [("x-hook-signature", .hstr "sig")]⟩ =
      ⟨⟨202, .empty⟩,
       [("events/starling/feeditem/ev-1",
         ⟨[("webhookEventUid", .jstr "ev-1")],
          [("x-hook-signature", .hstr "sig")]⟩)]⟩ ∧
    starlingFeedItem (fun _ _ => false) (fun s => s) []
      ⟨"raw", [("webhookEventUid", .jstr "ev-1")],
        [("x-hook-signature", .hstr "sig")]⟩ =
      ⟨⟨400, .errJson "Integrity of message signature could not be verified"⟩,
       []⟩ ∧
    starlingFeedItem (fun _ _ => true) (fun s => s) []
      ⟨"raw", [], [("x-hook-signature", .hstr "sig")]⟩ =
      ⟨⟨400, .errJson "Missing webhookEventUid in payload"⟩, []⟩ := by
  refine ⟨?_, ?_, ?_⟩
  · exact (starlingFeedItem_responses (fun _ _ => true) (fun s => s) [] _).2.2
      (.jstr "ev-1") rfl rfl
  · exact (starlingFeedItem_responses (fun _ _ => false) (fun s => s) [] _).1 rfl
  · exact (starlingFeedItem_responses (fun _ _ => true) (fun s => s) [] _).2.1
      rfl rfl

/-- Claim C8: with the enable flag set to `"false"` or absent (its declared
default), the V2 scheduled job performs no remote fetch (empty trace), no
cursor query, and no write (store unchanged), returning immediately with
success. -/
theorem etsyLedgerSyncV2_disabled (cfg : EtsyConfig) (q : QueryResult)
    (api : RemoteApi) (store : Store) :
    cfg.etsySyncEnabled = none ∨ cfg.etsySyncEnabled = some "false" →
    etsyLedgerSyncV2 cfg q api store = ⟨store, [], false, .ok ()⟩ := by
  intro h
  have hv : syncEnabledValue cfg = "false" := by
    rcases h with h | h <;> simp [syncEnabledValue, h]
  rw [etsyLedgerSyncV2, if_pos]
  rw [hv]
  decide

/-- Witness for C8: a concrete configuration with the flag unset (and one
with it set to `"false"`) produces no fetch, no query, no write. -/
theorem etsyLedgerSyncV2_disabled_witness :
    etsyLedgerSyncV2 ⟨"key", "secret", "123", none⟩ .err
      ⟨fun _ _ _ => [⟨some 1, some 1, none⟩], fun _ => false⟩ [] =
      ⟨[], [], false, .ok ()⟩ ∧
    etsyLedgerSyncV2 ⟨"key", "secret", "123", some "false"⟩ .err
      ⟨fun _ _ _ => [⟨some 1, some 1, none⟩], fun _ => false⟩ [] =
      ⟨[], [], false, .ok ()⟩ := by
  exact ⟨etsyLedgerSyncV2_disabled _ _ _ _ (Or.inl rfl),
    etsyLedgerSyncV2_disabled _ _ _ _ (Or.inr rfl)⟩

theorem wstoreSet_lookup_self (s : WStore) (k : String) (d : WebhookDoc) :
    (wstoreSet s k d).lookup k = some d := by
  induction s with
  | nil => simp [wstoreSet, List.lookup]
  | cons p rest ih =>
    by_cases h : p.1 == k
    · simp [wstoreSet, h, List.lookup]
    · have h2 : (k == p.1) = false := by
        rw [beq_eq_false_iff_ne]
        intro hk
        exact h (beq_iff_eq.mpr hk.symm)
      simp [wstoreSet, h, List.lookup, h2, ih]

theorem wstoreSet_count_self (s : WStore) (k : String) (d : WebhookDoc)
    (h : wcountKey s k ≤ 1) : wcountKey (wstoreSet s k d) k = 1 := by
  simp only [wcountKey] at h ⊢
  induction s with
  | nil => simp [wstoreSet]
  | cons p rest ih =>
    by_cases hp : (p.1 == k) = true
    · simp only [wstoreSet, hp, if_true, List.filter_cons, beq_self_eq_true,
        List.length_cons] at h ⊢
      omega
    · have hp' : (p.1 == k) = false := by
        cases hq : (p.1 == k) with
        | false => rfl
        | true => exact absurd hq hp
      rw [List.filter_cons, hp', if_neg Bool.false_ne_true] at h
      rw [wstoreSet, hp', if_neg Bool.false_ne_true, List.filter_cons, hp',
        if_neg Bool.false_ne_true]
      exact ih h

theorem wstoreSet_idem (s : WStore) (k : String) (d : WebhookDoc) :
    wstoreSet (wstoreSet s k d) k d = wstoreSet s k d := by
  induction s with
  | nil => simp [wstoreSet]
  | cons p rest ih =>
    by_cases h : p.1 == k
    · simp [wstoreSet, h]
    · simp [wstoreSet, h, ih]

/-- Claim C7: webhook ingestion is idempotent — delivering the same payload
(same `webhookEventUid`) twice leaves the store exactly as after the first
delivery, with exactly one document at the derived key, holding the parsed
body and headers (the second write overwrites, it does not duplicate). -/
theorem starlingFeedItem_idempotent (rsaVerify : String → String → Bool)
    (base64Decode : String → String) (store : WStore) (req : Req)
    (eventId : JValue) :
    verifyEvent rsaVerify base64Decode req = true →
    extractedUid req.parsedBody = some eventId →
    wcountKey store (feedItemDocKey eventId) ≤ 1 →
    (starlingFeedItem rsaVerify base64Decode
        (starlingFeedItem rsaVerify base64Decode store req).store req).store =
      (starlingFeedItem rsaVerify base64Decode store req).store ∧
    wcountKey
      (starlingFeedItem rsaVerify base64Decode
        (starlingFeedItem rsaVerify base64Decode store req).store req).store
      (feedItemDocKey eventId) = 1 ∧
    (starlingFeedItem rsaVerify base64Decode
        (starlingFeedItem rsaVerify base64Decode store req).store req).store.lookup
      (feedItemDocKey eventId) = some ⟨req.parsedBody, req.headers⟩ := by
  intro hv hu hc
  have h1 : (starlingFeedItem rsaVerify base64Decode store req).store =
      wstoreSet store (feedItemDocKey eventId) ⟨req.parsedBody, req.headers⟩ := by
    rw [starlingFeedItem, hv, hu]
    rfl
  have h2 : (starlingFeedItem rsaVerify base64Decode
      (starlingFeedItem rsaVerify base64Decode store req).store req).store =
      wstoreSet (wstoreSet store (feedItemDocKey eventId)
          ⟨req.parsedBody, req.headers⟩)
        (feedItemDocKey eventId) ⟨req.parsedBody, req.headers⟩ := by
    rw [starlingFeedItem, hv, hu, h1]
    rfl
  rw [h2, h1, wstoreSet_idem]
  refine ⟨rfl, wstoreSet_count_self store _ _ hc, wstoreSet_lookup_self store _ _⟩

/-- Witness for C7: delivering the "ev-1" payload twice into the empty store
stores exactly one document at its key. -/
theorem starlingFeedItem_idempotent_witness :
    (starlingFeedItem (fun _ _ => true) (fun s => s)
        (starlingFeedItem (fun _ _ => true) (fun s => s) []
          ⟨"raw", [("webhookEventUid", .jstr "ev-1")],
            [("x-hook-signature", .hstr "sig")]⟩).store
        ⟨"raw", [("webhookEventUid", .jstr "ev-1")],
          [("x-hook-signature", .hstr "sig")]⟩).store =
      (starlingFeedItem (fun _ _ => true) (fun s => s) []
        ⟨"raw", [("webhookEventUid", .jstr "ev-1")],
          [("x-hook-signature", .hstr "sig")]⟩).store ∧
    wcountKey
      (starlingFeedItem (fun _ _ => true) (fun s => s)
        (starlingFeedItem (fun _ _ => true) (fun s => s) []
          ⟨"raw", [("webhookEventUid", .jstr "ev-1")],
            [("x-hook-signature", .hstr "sig")]⟩).store
        ⟨"raw", [("webhookEventUid", .jstr "ev-1")],
          [("x-hook-signature", .hstr "sig")]⟩).store
      (feedItemDocKey (.jstr "ev-1")) = 1 := by
  have h := starlingFeedItem_idempotent (fun _ _ => true) (fun s => s) []
    ⟨"raw", [("webhookEventUid", .jstr "ev-1")],
      [("x-hook-signature", .hstr "sig")]⟩ (.jstr "ev-1") rfl rfl (by decide)
  exact ⟨h.1, h.2.1⟩

theorem validOf_append (a b : List LedgerEntry) :
    validOf (a ++ b) = validOf a ++ validOf b := List.filter_append a b

theorem persistList_append (store : Store) (a b : List LedgerEntry) :
    persistList store (a ++ b) = persistList (persistList store a) b :=
  List.foldl_append _ _ a b

theorem drop_split_at_page (data : List LedgerEntry) (offset : Nat) :
    data.drop offset = (data.drop offset).take 100 ++ data.drop (offset + 100) := by
  rw [← List.drop_drop]
  exact (List.take_append_drop 100 (data.drop offset)).symm

theorem requestsOf_cleanTrace (data : List LedgerEntry) (k : Nat) :
    ∀ offset, requestsOf (cleanTrace data offset k) =
      (List.range k).map (fun i => (offset + 100 * i, 100)) := by
  induction k with
  | zero => intro offset; rfl
  | succ k ih =>
    intro offset
    rw [cleanTrace, List.range_succ_eq_map]
    simp only [requestsOf, List.filterMap_cons] at ih ⊢
    rw [ih (offset + 100)]
    simp only [List.map_cons, List.map_map]
    congr 1
    refine List.map_congr_left ?_
    intro i _
    simp only [Function.comp_apply, Nat.succ_eq_add_one]
    have h100 : offset + 100 + 100 * i = offset + 100 * (i + 1) := by ring
    rw [h100]

theorem processPage_clean_run (api : RemoteApi) (shopId minCreated maxCreated : Int)
    (hfail : ∀ o, api.failsAt o = false) (offset totalPersisted : Nat)
    (store : Store) :
    (processPage api shopId minCreated maxCreated offset totalPersisted store).store =
      persistList store (validOf ((api.data shopId minCreated maxCreated).drop offset)) ∧
    (processPage api shopId minCreated maxCreated offset totalPersisted store).trace =
      cleanTrace (api.data shopId minCreated maxCreated) offset
        (((api.data shopId minCreated maxCreated).length - offset) / 100 + 1) ∧
    (processPage api shopId minCreated maxCreated offset totalPersisted store).outcome =
      .ok (totalPersisted +
        (validOf ((api.data shopId minCreated maxCreated).drop offset)).length) := by
  rw [processPage.eq_def, hfail offset]
  simp only [Bool.false_eq_true, if_false]
  by_cases h : (pageAt api shopId minCreated maxCreated offset).length = 0 ∨
      (pageAt api shopId minCreated maxCreated offset).length < 100
  · rw [dif_pos h]
    have hshort : (api.data shopId minCreated maxCreated).length - offset < 100 := by
      simp only [pageAt, List.length_take, List.length_drop] at h
      omega
    have hpage : pageAt api shopId minCreated maxCreated offset =
        (api.data shopId minCreated maxCreated).drop offset := by
      unfold pageAt
      exact List.take_of_length_le (by rw [List.length_drop]; omega)
    have hdiv : ((api.data shopId minCreated maxCreated).length - offset) / 100 = 0 :=
      Nat.div_eq_of_lt hshort
    refine ⟨?_, ?_, ?_⟩
    · rw [persistBatch_eq, hpage]
    · rw [hdiv]
      simp only [cleanTrace, pageAt]
    · rw [persistBatch_eq, hpage]
  · rw [dif_neg h]
    have hge : 100 ≤ (api.data shopId minCreated maxCreated).length - offset := by
      simp only [pageAt, List.length_take, List.length_drop] at h
      omega
    have ih := processPage_clean_run api shopId minCreated maxCreated hfail (offset + 100)
      (totalPersisted +
        (persistBatch store (pageAt api shopId minCreated maxCreated offset)).count)
      (persistBatch store (pageAt api shopId minCreated maxCreated offset)).store
    have hsplit := drop_split_at_page (api.data shopId minCreated maxCreated) offset
    have hdiv : ((api.data shopId minCreated maxCreated).length - offset) / 100 =
        ((api.data shopId minCreated maxCreated).length - (offset + 100)) / 100 + 1 := by
      have h1 : (api.data shopId minCreated maxCreated).length - (offset + 100) =
          (api.data shopId minCreated maxCreated).length - offset - 100 := by omega
      rw [h1, Nat.div_eq_sub_div (by norm_num) hge]
    refine ⟨?_, ?_, ?_⟩
    · show (processPage api shopId minCreated maxCreated (offset + 100) _ _).store = _
      rw [ih.1, persistBatch_eq]
      show persistList (persistList store
        (validOf (pageAt api shopId minCreated maxCreated offset))) _ = _
      rw [← persistList_append, ← validOf_append, pageAt, ← hsplit]
    · show List.cons _ (List.cons _
        (processPage api shopId minCreated maxCreated (offset + 100) _ _).trace) = _
      rw [ih.2.1, hdiv]
      conv_rhs => rw [cleanTrace]
      simp only [pageAt]
    · show (processPage api shopId minCreated maxCreated (offset + 100) _ _).outcome = _
      rw [ih.2.2, persistBatch_eq]
      show Except.ok (totalPersisted +
        (validOf (pageAt api shopId minCreated maxCreated offset)).length + _) = _
      congr 1
      conv_rhs => rw [hsplit]
      rw [← pageAt, validOf_append, List.length_append]
      omega
termination_by (api.data shopId minCreated maxCreated).length - offset
decreasing_by
  simp only [pageAt, List.length_take, List.length_drop] at h
  omega

theorem processPage_fail_run (api : RemoteApi) (shopId minCreated maxCreated : Int) :
    ∀ g offset totalPersisted store,
    (∀ i, i < g → api.failsAt (offset + 100 * i) = false) →
    api.failsAt (offset + 100 * g) = true →
    offset + 100 * g ≤ (api.data shopId minCreated maxCreated).length →
    (processPage api shopId minCreated maxCreated offset totalPersisted store).store =
      persistList store
        (validOf (((api.data shopId minCreated maxCreated).drop offset).take (100 * g))) ∧
    (processPage api shopId minCreated maxCreated offset totalPersisted store).trace =
      cleanTrace (api.data shopId minCreated maxCreated) offset g ++
        [.fetchReq (offset + 100 * g) 100, .fetchFail (offset + 100 * g)] ∧
    (processPage api shopId minCreated maxCreated offset totalPersisted store).outcome =
      .error "ledger fetch failed" := by
  intro g
  induction g with
  | zero =>
    intro offset totalPersisted store h1 h2 h3
    simp only [Nat.mul_zero, Nat.add_zero] at h2 ⊢
    rw [processPage.eq_def, h2, if_pos rfl]
    refine ⟨?_, rfl, rfl⟩
    rw [List.take_zero]
    rfl
  | succ g ihg =>
    intro offset totalPersisted store h1 h2 h3
    have h0 : api.failsAt offset = false := by
      have h := h1 0 (Nat.succ_pos g)
      simpa using h
    rw [processPage.eq_def, h0]
    simp only [Bool.false_eq_true, if_false]
    have hge : 100 ≤ (api.data shopId minCreated maxCreated).length - offset := by
      omega
    have hcond : ¬((pageAt api shopId minCreated maxCreated offset).length = 0 ∨
        (pageAt api shopId minCreated maxCreated offset).length < 100) := by
      simp only [pageAt, List.length_take, List.length_drop]
      omega
    rw [dif_neg hcond]
    have ih := ihg (offset + 100)
      (totalPersisted +
        (persistBatch store (pageAt api shopId minCreated maxCreated offset)).count)
      (persistBatch store (pageAt api shopId minCreated maxCreated offset)).store
      (by
        intro i hi
        have h := h1 (i + 1) (by omega)
        rwa [show offset + 100 * (i + 1) = offset + 100 + 100 * i by ring] at h)
      (by rwa [show offset + 100 + 100 * g = offset + 100 * (g + 1) by ring])
      (by omega)
    have hsplit2 : ((api.data shopId minCreated maxCreated).drop offset).take
        (100 * (g + 1)) =
        pageAt api shopId minCreated maxCreated offset ++
          ((api.data shopId minCreated maxCreated).drop (offset + 100)).take (100 * g) := by
      rw [show 100 * (g + 1) = 100 + 100 * g by ring, List.take_add, List.drop_drop]
      rfl
    refine ⟨?_, ?_, ?_⟩
    · show (processPage api shopId minCreated maxCreated (offset + 100) _ _).store = _
      rw [ih.1, persistBatch_eq]
      show persistList (persistList store
        (validOf (pageAt api shopId minCreated maxCreated offset))) _ = _
      rw [← persistList_append, ← validOf_append, ← hsplit2]
    · show List.cons _ (List.cons _
        (processPage api shopId minCreated maxCreated (offset + 100) _ _).trace) = _
      rw [ih.2.1]
      conv_rhs => rw [cleanTrace]
      simp only [pageAt, List.cons_append]
      rw [show offset + 100 + 100 * g = offset + 100 * (g + 1) by ring]
    · show (processPage api shopId minCreated maxCreated (offset + 100) _ _).outcome = _
      exact ih.2.2

theorem processPageV2_eq_processPage (api : RemoteApi)
    (shopId minCreated maxCreated : Int) (offset totalPersisted : Nat)
    (store : Store) :
    processPageV2 api shopId minCreated maxCreated offset totalPersisted store =
      processPage api shopId minCreated maxCreated offset totalPersisted store := by
  rw [processPage.eq_def, processPageV2.eq_def]
  by_cases hf : api.failsAt offset
  · rw [if_pos hf, if_pos hf]
  · rw [if_neg hf, if_neg hf]
    by_cases hc : (pageAt api shopId minCreated maxCreated offset).length = 0 ∨
        (pageAt api shopId minCreated maxCreated offset).length < 100
    · rw [dif_pos hc, dif_pos hc, persistBatchV2_eq_persistBatch]
    · rw [dif_neg hc, dif_neg hc, persistBatchV2_eq_persistBatch,
        processPageV2_eq_processPage api shopId minCreated maxCreated (offset + 100)]
termination_by (api.data shopId minCreated maxCreated).length - offset
decreasing_by
  simp only [pageAt, List.length_take, List.length_drop] at hc
  omega

/-- Claim C1: on every failure-free run, the loop issues requests with the
fixed page size 100 at offsets 0, 100, 200, ... — one request per started
page, i.e. exactly `length / 100 + 1` requests, so it advances by 100 after
each full page and stops exactly at the first short (or empty) page — and
returns the total number of persisted records (the dataset size when every
record has a valid id). -/
theorem fetch_loop_pagination (api : RemoteApi) (shopId minCreated maxCreated : Int)
    (store : Store) (hfail : ∀ o, api.failsAt o = false) :
    requestsOf (fetchAndPersistLedgerEntries api shopId minCreated maxCreated
        store).trace =
      (List.range ((api.data shopId minCreated maxCreated).length / 100 + 1)).map
        (fun i => (100 * i, 100)) ∧
    (fetchAndPersistLedgerEntries api shopId minCreated maxCreated store).outcome =
      .ok ((validOf (api.data shopId minCreated maxCreated)).length) ∧
    ((∀ e ∈ api.data shopId minCreated maxCreated, entryIdMissing e = false) →
      (fetchAndPersistLedgerEntries api shopId minCreated maxCreated store).outcome =
        .ok ((api.data shopId minCreated maxCreated).length)) := by
  have h := processPage_clean_run api shopId minCreated maxCreated hfail 0 0 store
  rw [fetchAndPersistLedgerEntries]
  refine ⟨?_, ?_, ?_⟩
  · rw [h.2.1, requestsOf_cleanTrace, Nat.sub_zero]
    refine List.map_congr_left ?_
    intro i _
    rw [Nat.zero_add]
  · rw [h.2.2, List.drop_zero, Nat.zero_add]
  · intro hv
    rw [h.2.2, List.drop_zero, Nat.zero_add]
    have hall : validOf (api.data shopId minCreated maxCreated) =
        api.data shopId minCreated maxCreated :=
      List.filter_eq_self.mpr (fun e he => by simp [hv e he])
    rw [hall]

set_option maxRecDepth 100000 in
/-- Witness for C1: a dataset of 237 valid records is fetched in exactly 3
requests, at offsets 0, 100 and 200 with limit 100, and the run returns a
total of 237. -/
theorem fetch_loop_pagination_witness :
    requestsOf (fetchAndPersistLedgerEntries
        ⟨fun _ _ _ => (List.range 237).map (fun i => ⟨some (i + 1), some 1, none⟩),
         fun _ => false⟩ 1 0 9 []).trace = [(0, 100), (100, 100), (200, 100)] ∧
    (fetchAndPersistLedgerEntries
        ⟨fun _ _ _ => (List.range 237).map (fun i => ⟨some (i + 1), some 1, none⟩),
         fun _ => false⟩ 1 0 9 []).outcome = .ok 237 := by
  have h := fetch_loop_pagination
    ⟨fun _ _ _ => (List.range 237).map (fun i => ⟨some (i + 1), some 1, none⟩),
     fun _ => false⟩ 1 0 9 [] (fun _ => rfl)
  have hval : ∀ e ∈ (List.range 237).map
      (fun i => (⟨some (i + 1), some 1, none⟩ : LedgerEntry)),
      entryIdMissing e = false := by
    intro e he
    rcases List.mem_map.mp he with ⟨i, _, rfl⟩
    rfl
  have hlen : ((List.range 237).map
      (fun i => (⟨some (i + 1), some 1, none⟩ : LedgerEntry))).length = 237 := by
    rw [List.length_map, List.length_range]
  constructor
  · rw [h.1]
    show (List.range ((((List.range 237).map
      (fun i => (⟨some (i + 1), some 1, none⟩ : LedgerEntry))).length) / 100 + 1)).map
        (fun i => (100 * i, 100)) = _
    rw [hlen]
    rfl
  · rw [h.2.2 hval]
    show Except.ok (((List.range 237).map
      (fun i => (⟨some (i + 1), some 1, none⟩ : LedgerEntry))).length) = _
    rw [hlen]

/-- Claim C5: in a failure-free run the trace is a strict alternation of one
page request followed by one `persistBatch` write before the next request;
when the request at offset `100 * f` throws (the earlier ones succeeding on
full pages), the error propagates as the loop's outcome, the failing offset
is requested exactly once with no retry, and the store keeps exactly the
records persisted for the `f` pages fetched before the failure. -/
theorem fetch_loop_error_propagation (api : RemoteApi)
    (shopId minCreated maxCreated : Int) (store : Store) :
    ((∀ o, api.failsAt o = false) →
      (fetchAndPersistLedgerEntries api shopId minCreated maxCreated store).trace =
        cleanTrace (api.data shopId minCreated maxCreated) 0
          ((api.data shopId minCreated maxCreated).length / 100 + 1)) ∧
    (∀ f, (∀ i, i < f → api.failsAt (100 * i) = false) →
      api.failsAt (100 * f) = true →
      100 * f ≤ (api.data shopId minCreated maxCreated).length →
      (fetchAndPersistLedgerEntries api shopId minCreated maxCreated
          store).outcome = .error "ledger fetch failed" ∧
      (fetchAndPersistLedgerEntries api shopId minCreated maxCreated store).store =
        persistList store
          (validOf ((api.data shopId minCreated maxCreated).take (100 * f))) ∧
      (fetchAndPersistLedgerEntries api shopId minCreated maxCreated store).trace =
        cleanTrace (api.data shopId minCreated maxCreated) 0 f ++
          [.fetchReq (100 * f) 100, .fetchFail (100 * f)]) := by
  constructor
  · intro hfail
    have h := processPage_clean_run api shopId minCreated maxCreated hfail 0 0 store
    rw [fetchAndPersistLedgerEntries, h.2.1, Nat.sub_zero]
  · intro f h1 h2 h3
    have h := processPage_fail_run api shopId minCreated maxCreated f 0 0 store
      (by intro i hi; simpa using h1 i hi) (by simpa using h2) (by simpa using h3)
    rw [fetchAndPersistLedgerEntries]
    refine ⟨h.2.2, ?_, ?_⟩
    · rw [h.1, List.drop_zero]
    · rw [h.2.1, Nat.zero_add]

set_option maxRecDepth 100000 in
/-- Witness for C5: with a 150-record dataset and the request at offset 100
throwing, the run aborts with the fetch error after persisting the first
full page (100 records), having requested offsets 0 and 100 only. -/
theorem fetch_loop_error_propagation_witness :
    (fetchAndPersistLedgerEntries
        ⟨fun _ _ _ => (List.range 150).map (fun i => ⟨some (i + 1), some 1, none⟩),
         fun o => o == 100⟩ 1 0 9 []).outcome = .error "ledger fetch failed" ∧
    (fetchAndPersistLedgerEntries
        ⟨fun _ _ _ => (List.range 150).map (fun i => ⟨some (i + 1), some 1, none⟩),
         fun o => o == 100⟩ 1 0 9 []).store =
      persistList []
        (validOf (((List.range 150).map
          (fun i => ⟨some (i + 1), some 1, none⟩)).take 100)) ∧
    requestsOf (fetchAndPersistLedgerEntries
        ⟨fun _ _ _ => (List.range 150).map (fun i => ⟨some (i + 1), some 1, none⟩),
         fun o => o == 100⟩ 1 0 9 []).trace = [(0, 100), (100, 100)] := by
  have h := (fetch_loop_error_propagation
    ⟨fun _ _ _ => (List.range 150).map (fun i => ⟨some (i + 1), some 1, none⟩),
     fun o => o == 100⟩ 1 0 9 []).2 1
    (by
      intro i hi
      have hz : i = 0 := by omega
      subst hz
      rfl)
    rfl
    (by
      show 100 * 1 ≤ ((List.range 150).map
        (fun i => (⟨some (i + 1), some 1, none⟩ : LedgerEntry))).length
      rw [List.length_map, List.length_range]
      omega)
  refine ⟨h.1, ?_, ?_⟩
  · rw [h.2.1]
  · rw [h.2.2]
    rfl

/-- Claim C10: the two sync variants are extensionally equivalent on their
shared core — `persistBatch` and `fetchAndPersistLedgerEntries` of the V2
variant produce, for every input, the same writes, trace and returned count
as the V1 functions. -/
theorem sync_variants_equivalent :
    (∀ store entries, persistBatchV2 store entries = persistBatch store entries) ∧
    (∀ api shopId minCreated maxCreated store,
      fetchAndPersistLedgerEntriesV2 api shopId minCreated maxCreated store =
        fetchAndPersistLedgerEntries api shopId minCreated maxCreated store) := by
  refine ⟨persistBatchV2_eq_persistBatch, ?_⟩
  intro api shopId minCreated maxCreated store
  rw [fetchAndPersistLedgerEntriesV2, fetchAndPersistLedgerEntries,
    processPageV2_eq_processPage]

end LedgerSpec
